import Mathlib

/-!
Shallow embedding of the Bluevision blueprint-to-3D pipeline:
src/backend/feature_extraction.py, src/backend/geometry_engine.py and the
/convert route of src/backend/main.py.

The external libraries (OpenCV, Shapely, trimesh) are modelled at the exact
boundary the source observes:

* a Shapely geometry is carried as the validity / emptiness flags the source
  branches on, plus the vertex list for the rectangles the source itself
  constructs; the flags of such a source-built axis-aligned rectangle are
  computed from its side lengths, which is Shapely validity for that shape;
* a trimesh mesh is carried as the list of z-extents of its components (the
  xy footprint is abstracted away) together with a validity flag;
* outcomes of external calls that the source merely branches on (decoded
  images, contour data, template-match scores, whether an OpenCV / Shapely /
  trimesh call raised, the boolean-difference engine) are explicit inputs of
  the embedded functions;
* Python's exception channel is made explicit as an Except value, so that
  the source's try/except structure is an honest catch;
* Python floats are modelled as exact rationals (every constant involved is
  an exact decimal).
-/

namespace Bluevision

/-- A Shapely polygon as observed by the source: its validity and emptiness
flags plus the vertex list (x, y) it was built from (left empty for polygons
whose coordinates the pipeline never inspects). -/
structure SPoly where
  valid : Bool
  empty : Bool
  pts : List (ℤ × ℤ)
deriving DecidableEq

/-- Result of the Shapely zero-buffer repair as branched on by
extract_polygons_from_image: a single polygon, or a MultiPolygon with its own
flags and member polygons. -/
inductive BufferResult where
  | single (p : SPoly)
  | multi (valid : Bool) (empty : Bool) (geoms : List SPoly)
deriving DecidableEq

/-- Shapely facts about a zero-buffer result: a valid MultiPolygon has only
valid member polygons, and Shapely refuses to build a multi-part geometry
with empty parts, so members are never empty. -/
def BufferResult.shapelyInv : BufferResult → Prop
  | .single _ => True
  | .multi v _ geoms =>
      (v = true → ∀ p ∈ geoms, p.valid = true) ∧ ∀ p ∈ geoms, p.empty = false

instance : DecidablePred BufferResult.shapelyInv := by
  intro b
  cases b with
  | single p => exact .isTrue trivial
  | multi v e geoms => exact inferInstanceAs (Decidable (_ ∧ _))

/-- One OpenCV contour together with the outcome of every external call the
per-contour loop of extract_polygons_from_image makes on it: its area, its
point count after reshape, whether the Shapely Polygon constructor raised,
the constructed polygon, whether buffer(0) raised, and the buffer result. -/
structure ContourInput where
  area : ℚ
  numPoints : ℕ
  polyRaises : Bool
  poly : SPoly
  bufferRaises : Bool
  buffered : BufferResult
deriving DecidableEq

/-- Lines 71-97 of feature_extraction.py: the per-contour body of the
extraction loop.  The inner try/except swallows construction and repair
failures, so a raising contour contributes nothing. -/
def processContour (min_area : ℚ) (c : ContourInput) : List SPoly :=
  if c.area < min_area then []
  else if c.numPoints < 3 then []
  else if c.polyRaises then []
  else if c.poly.valid && !c.poly.empty then [c.poly]
  else if !c.poly.valid then
    if c.bufferRaises then []
    else
      match c.buffered with
      | .single f => if f.valid && !f.empty then [f] else []
      | .multi v e geoms => if v && !e then geoms else []
  else []

/-- A decoded blueprint image as consumed by extract_polygons_from_image:
its dimensions, whether the OpenCV preprocessing calls raise, whether the
debug imwrite raises (swallowed by an inner try), and the contours
cv2.findContours produces on the cleaned mask. -/
structure ImageInput where
  h : ℕ
  w : ℕ
  threshRaises : Bool
  writeRaises : Bool
  contours : List ContourInput
deriving DecidableEq

/-- Line 105 of feature_extraction.py:
safe_inset = min(inset, h_img // 2 - 1, w_img // 2 - 1) with inset = 10
(Python floor division on the non-negative image dimensions). -/
def safe_inset (h w : ℕ) : ℤ :=
  min 10 (min ((h : ℤ) / 2 - 1) ((w : ℤ) / 2 - 1))

/-- Lines 104-107 of feature_extraction.py: the fallback rectangle built
from the image dimensions.  Its Shapely flags are computed from its side
lengths: an axis-aligned rectangle with positive sides is valid and
non-empty, a degenerate one is not valid. -/
def fallbackPoly (h w : ℕ) : SPoly :=
  { valid := decide (0 < (w : ℤ) - 2 * safe_inset h w ∧ 0 < (h : ℤ) - 2 * safe_inset h w)
    empty := !decide (0 < (w : ℤ) - 2 * safe_inset h w ∧ 0 < (h : ℤ) - 2 * safe_inset h w)
    pts := [(safe_inset h w, safe_inset h w),
            ((w : ℤ) - safe_inset h w, safe_inset h w),
            ((w : ℤ) - safe_inset h w, (h : ℤ) - safe_inset h w),
            (safe_inset h w, (h : ℤ) - safe_inset h w)] }

/-- Exceptions relevant to the spec's error taxonomy.  The spec names
imageLoadError and templateLoadError; the source itself only ever has
library errors (cvError stands for any of them), all of which it catches. -/
inductive PyExn where
  | imageLoadError
  | templateLoadError
  | cvError
deriving DecidableEq

/-- Body of the top-level try of extract_polygons_from_image
(lines 17-116).  An unreadable image is an early ordinary return of [],
not an exception; a raising OpenCV preprocessing call escapes this body
(and is caught by the wrapper below); the debug imwrite failure is
swallowed by its own inner try and so does not appear. -/
def extractBody (img : Option ImageInput) (min_area : ℚ) :
    Except PyExn (List SPoly) :=
  match img with
  | none => Except.ok []
  | some im =>
    if im.threshRaises then Except.error PyExn.cvError
    else
      let wall_polygons := (im.contours.map (processContour min_area)).flatten
      if wall_polygons.isEmpty then
        let fallback_poly := fallbackPoly im.h im.w
        if fallback_poly.valid then Except.ok [fallback_poly]
        else Except.ok []
      else Except.ok wall_polygons

/-- extract_polygons_from_image (feature_extraction.py lines 6-119): the
body above under the top-level try/except that returns [] on any
exception (lines 117-119). -/
def extract_polygons_from_image (img : Option ImageInput) (min_area : ℚ) :
    Except PyExn (List SPoly) :=
  match extractBody img min_area with
  | Except.ok l => Except.ok l
  | Except.error _ => Except.ok []

/-- A decoded template image plus the cv2.matchTemplate outcome on it:
template width and height (from template.shape reversed), whether
matchTemplate raised (for instance template larger than the image), and the
result matrix as a list of (location, score) entries. -/
structure MatchInput where
  w : ℕ
  h : ℕ
  matchRaises : Bool
  scores : List ((ℤ × ℤ) × ℚ)
deriving DecidableEq

/-- Lines 146-149 of feature_extraction.py: the template-sized axis-aligned
rectangle anchored at a match location pt, listed corner order
top-left, top-right, bottom-right, bottom-left.  Its Shapely flags are
computed from the template's side lengths. -/
def rectPoly (pt : ℤ × ℤ) (w h : ℕ) : SPoly :=
  { valid := decide (0 < w ∧ 0 < h)
    empty := !decide (0 < w ∧ 0 < h)
    pts := [(pt.1, pt.2), (pt.1 + (w : ℤ), pt.2),
            (pt.1 + (w : ℤ), pt.2 + (h : ℤ)), (pt.1, pt.2 + (h : ℤ))] }

/-- Body of the try of find_features (lines 125-154): unreadable main image
or template cause early ordinary returns of []; a raising matchTemplate
escapes to the wrapper; otherwise each location whose score passes the
threshold yields its template-sized rectangle, kept when valid and
non-empty. -/
def findFeaturesBody (img : Option Unit) (tmpl : Option MatchInput)
    (threshold : ℚ) : Except PyExn (List SPoly) :=
  match img with
  | none => Except.ok []
  | some _ =>
    match tmpl with
    | none => Except.ok []
    | some t =>
      if t.matchRaises then Except.error PyExn.cvError
      else
        Except.ok
          (((t.scores.filter (fun e => decide (threshold ≤ e.2))).map
              (fun e => rectPoly e.1 t.w t.h)).filter
            (fun p => p.valid && !p.empty))

/-- find_features (feature_extraction.py lines 122-158): the body above
under the try/except that returns [] on any exception (lines 156-158). -/
def find_features (img : Option Unit) (tmpl : Option MatchInput)
    (threshold : ℚ) : Except PyExn (List SPoly) :=
  match findFeaturesBody img tmpl threshold with
  | Except.ok l => Except.ok l
  | Except.error _ => Except.ok []

/-- A trimesh mesh, carried as the z-extent (zmin, zmax) of each of its
components (the xy footprint is abstracted away) plus a validity flag. -/
structure Mesh where
  comps : List (ℚ × ℚ)
  valid : Bool
deriving DecidableEq

/-- trimesh.Trimesh() with no arguments: the empty mesh
(geometry_engine.py line 56). -/
def emptyTrimesh : Mesh := ⟨[], true⟩

/-- mesh.is_empty: a trimesh mesh is empty when it has no geometry. -/
def Mesh.isEmptyM (m : Mesh) : Bool := m.comps.isEmpty

/-- trimesh.creation.extrude_polygon p hgt: extruding a (valid, non-empty)
polygon from z = 0 up to z = hgt yields one component with that z-extent. -/
def extrudePolygon (hgt : ℚ) : Mesh := ⟨[(0, hgt)], true⟩

/-- mesh.apply_translation([0, 0, t]): shift every component by t in z. -/
def Mesh.applyTranslationZ (m : Mesh) (t : ℚ) : Mesh :=
  ⟨m.comps.map (fun c => (c.1 + t, c.2 + t)), m.valid⟩

/-- mesh.apply_scale(s): scale every coordinate, hence every component
z-extent, by s. -/
def Mesh.applyScale (m : Mesh) (s : ℚ) : Mesh :=
  ⟨m.comps.map (fun c => (c.1 * s, c.2 * s)), m.valid⟩

/-- trimesh.util.concatenate: the components of the concatenation are the
components of the parts. -/
def concatenate (ms : List Mesh) : Mesh :=
  ⟨(ms.map Mesh.comps).flatten, ms.all Mesh.valid⟩

/-- A polygon handed to build_3d_model together with the one external
outcome its per-polygon loop observes: whether
trimesh.creation.extrude_polygon raises on it (caught with a warning). -/
structure PolyInput where
  poly : SPoly
  extrudeRaises : Bool
deriving DecidableEq

/-- A polygon input that passes the valid / non-empty check and whose
extrusion succeeds, so that it contributes a wall or opening mesh. -/
def accepted (p : PolyInput) : Prop :=
  p.poly.valid = true ∧ p.poly.empty = false ∧ p.extrudeRaises = false

instance : DecidablePred accepted := fun _ =>
  inferInstanceAs (Decidable (_ ∧ _ ∧ _))

/-- geometry_engine.py line 6: REAL_WORLD_WALL_THICKNESS_METERS = 0.2. -/
def REAL_WORLD_WALL_THICKNESS_METERS : ℚ := 0.2

/-- geometry_engine.py line 7: REAL_WORLD_DOOR_HEIGHT_METERS = 2.1. -/
def REAL_WORLD_DOOR_HEIGHT_METERS : ℚ := 2.1

/-- geometry_engine.py line 9: REAL_WORLD_WINDOW_HEIGHT_METERS = 1.2. -/
def REAL_WORLD_WINDOW_HEIGHT_METERS : ℚ := 1.2

/-- geometry_engine.py line 10: REAL_WORLD_WINDOW_SILL_HEIGHT_METERS = 0.9. -/
def REAL_WORLD_WINDOW_SILL_HEIGHT_METERS : ℚ := 0.9

/-- Lines 20-27 of geometry_engine.py: the scaling logic.  A positive pixel
thickness gives thickness / 0.2 pixels per meter, otherwise the 1:1
fallback. -/
def scale_factor (wall_thickness_pixels : ℚ) : ℚ :=
  if 0 < wall_thickness_pixels then
    wall_thickness_pixels / REAL_WORLD_WALL_THICKNESS_METERS
  else 1

/-- The wall / door / window extrusion loops of build_3d_model (lines
38-52, 64-76, 79-93 minus the window translation): a polygon contributes
an extrusion of the given height when it is valid, non-empty and its
extrusion does not raise; otherwise it is skipped with a warning. -/
def extrudeList (ps : List PolyInput) (hgt : ℚ) : List Mesh :=
  ps.filterMap (fun p =>
    if p.poly.valid && !p.poly.empty then
      if p.extrudeRaises then none else some (extrudePolygon hgt)
    else none)

/-- build_3d_model (geometry_engine.py lines 12-118).  The boolean
difference engine (mesh.difference, line 102) is external and is passed in
as a function that may raise (Except.error) or return a mesh. -/
def build_3d_model (wall_polygons door_polygons window_polygons : List PolyInput)
    (wall_height wall_thickness_pixels : ℚ)
    (diff : Mesh → Mesh → Except Unit Mesh) : Mesh :=
  let sf := scale_factor wall_thickness_pixels
  let extrusion_height_pixels := wall_height * sf
  let door_height_pixels := REAL_WORLD_DOOR_HEIGHT_METERS * sf
  let window_height_pixels := REAL_WORLD_WINDOW_HEIGHT_METERS * sf
  let window_sill_pixels := REAL_WORLD_WINDOW_SILL_HEIGHT_METERS * sf
  let all_wall_meshes := extrudeList wall_polygons extrusion_height_pixels
  if all_wall_meshes.isEmpty then emptyTrimesh
  else
    let final_wall_mesh := concatenate all_wall_meshes
    let door_meshes := extrudeList door_polygons door_height_pixels
    let window_meshes :=
      (extrudeList window_polygons window_height_pixels).map
        (fun m => m.applyTranslationZ window_sill_pixels)
    let all_opening_meshes := door_meshes ++ window_meshes
    let final_model :=
      if all_opening_meshes.isEmpty then final_wall_mesh
      else
        match diff final_wall_mesh (concatenate all_opening_meshes) with
        | Except.ok m => if m.isEmptyM then final_wall_mesh else m
        | Except.error _ => final_wall_mesh
    if 0 < sf then final_model.applyScale (1 / sf) else final_model

/-- Responses of the /convert route of main.py that matter to the claims. -/
inductive ConvertResponse where
  | success
  | badRequestNoWalls
  | badRequestNoMeshes
  | serverError
deriving DecidableEq

/-- The /convert route of main.py (lines 110-169) from the point where the
wall polygons are available: an empty wall list is answered with the 400
"No wall features detected" response before any model is built; otherwise
build_3d_model runs (it never raises in the embedding, exactly as the
source catches everything internally), the mesh is exported, and a success
response is returned.  The except branch mapping a message containing
"No valid wall meshes could be created" to badRequestNoMeshes is
unreachable, because build_3d_model returns an empty mesh instead of
raising. -/
def convert_blueprint_to_3d (wall_polygons door_polygons window_polygons : List PolyInput)
    (wall_height wall_thickness : ℚ)
    (diff : Mesh → Mesh → Except Unit Mesh) : ConvertResponse × Mesh :=
  if wall_polygons.isEmpty then (ConvertResponse.badRequestNoWalls, emptyTrimesh)
  else
    (ConvertResponse.success,
      build_3d_model wall_polygons door_polygons window_polygons
        wall_height wall_thickness diff)

/-- A valid, non-empty polygon whose coordinates the pipeline never
inspects; used for concrete instances. -/
def demoPoly : SPoly := ⟨true, false, []⟩

/-- A wall/opening input that is accepted and extrudes fine. -/
def demoGood : PolyInput := ⟨demoPoly, false⟩

/-- A valid polygon whose trimesh extrusion raises. -/
def demoRaise : PolyInput := ⟨demoPoly, true⟩

/-- A boolean-difference engine that always raises. -/
def errDiff : Mesh → Mesh → Except Unit Mesh := fun _ _ => Except.error ()

/-- A boolean-difference engine returning a non-empty but invalid mesh. -/
def invalidDiff : Mesh → Mesh → Except Unit Mesh :=
  fun _ _ => Except.ok ⟨[(0, 1)], false⟩

/-- A readable 1 × 1 image with no usable contours. -/
def img11 : ImageInput := ⟨1, 1, false, false, []⟩

/-- A readable 30 × 40 image with no usable contours. -/
def img3040 : ImageInput := ⟨30, 40, false, false, []⟩

/-- A 2 × 3 template with a single match location scoring 0.9. -/
def tmpl23 : MatchInput := ⟨2, 3, false, [((1, 1), 9/10)]⟩

/-- A contour with area 200 and 4 points whose polygon is valid and
non-empty, so the extraction loop accepts it directly. -/
def cGood : ContourInput := ⟨200, 4, false, demoPoly, false, .single demoPoly⟩

/-- A readable 30 × 40 image with one directly accepted contour. -/
def imgDemo : ImageInput := ⟨30, 40, false, false, [cGood]⟩

/-! ## Helper lemmas -/

theorem scale_factor_pos (wtp : ℚ) : 0 < scale_factor wtp := by
  unfold scale_factor
  split_ifs with h
  · apply div_pos h
    norm_num [REAL_WORLD_WALL_THICKNESS_METERS]
  · norm_num

theorem scale_factor_ne_zero (wtp : ℚ) : scale_factor wtp ≠ 0 :=
  ne_of_gt (scale_factor_pos wtp)

theorem mem_extrudeList {ps : List PolyInput} {hgt : ℚ} {m : Mesh}
    (hm : m ∈ extrudeList ps hgt) : m = extrudePolygon hgt := by
  simp only [extrudeList, List.mem_filterMap] at hm
  obtain ⟨p, -, hp⟩ := hm
  split_ifs at hp
  all_goals simp_all

theorem extrudeList_ne_nil {ps : List PolyInput} (hgt : ℚ)
    (h : ∃ p ∈ ps, accepted p) : extrudeList ps hgt ≠ [] := by
  obtain ⟨p, hp, h1, h2, h3⟩ := h
  intro hnil
  unfold extrudeList at hnil
  rw [List.filterMap_eq_nil_iff] at hnil
  have := hnil p hp
  simp [h1, h2, h3] at this

theorem extrudeList_isEmpty_false {ps : List PolyInput} (hgt : ℚ)
    (h : ∃ p ∈ ps, accepted p) : (extrudeList ps hgt).isEmpty = false := by
  cases hE : (extrudeList ps hgt).isEmpty
  · rfl
  · exact absurd (List.isEmpty_iff.mp hE) (extrudeList_ne_nil hgt h)

/-- With no door and no window polygons, build_3d_model returns the
concatenated wall extrusions rescaled by 1 / scale_factor (the rescale is
always applied: the scale factor is always positive). -/
theorem build_no_openings (walls : List PolyInput) (wall_height wtp : ℚ)
    (diff : Mesh → Mesh → Except Unit Mesh)
    (hE : (extrudeList walls (wall_height * scale_factor wtp)).isEmpty = false) :
    build_3d_model walls [] [] wall_height wtp diff
      = (concatenate (extrudeList walls (wall_height * scale_factor wtp))).applyScale
          (1 / scale_factor wtp) := by
  have hnil : ∀ hgt : ℚ, extrudeList [] hgt = [] := fun _ => rfl
  simp only [build_3d_model, hE, Bool.false_eq_true, if_false, hnil,
    List.map_nil, List.append_nil, List.isEmpty_nil, if_true,
    if_pos (scale_factor_pos wtp)]

/-! ## Claim theorems -/

/-- Claim C2: for every wall_thickness_pixels > 0 the scale factor equals
wall_thickness_pixels / 0.2 (so wall_thickness_pixels = 5 gives exactly
25 pixels per meter), and for every wall_thickness_pixels ≤ 0 the scale
factor is exactly 1, reached by a normal fallback branch, not an error. -/
theorem c2_scale_factor_spec (wtp : ℚ) :
    (0 < wtp → scale_factor wtp = wtp / (0.2 : ℚ))
    ∧ scale_factor (5 : ℚ) = 25
    ∧ (wtp ≤ 0 → scale_factor wtp = 1) := by
  refine ⟨fun h => ?_, ?_, fun h => ?_⟩
  · simp [scale_factor, if_pos h, REAL_WORLD_WALL_THICKNESS_METERS]
  · norm_num [scale_factor, REAL_WORLD_WALL_THICKNESS_METERS]
  · simp [scale_factor, not_lt.mpr h]

/-- Witness for C2 at wall_thickness_pixels = 5 and -3. -/
theorem c2_scale_factor_spec_witness :
    ((0 : ℚ) < 5 ∧ scale_factor 5 = 5 / (0.2 : ℚ))
    ∧ ((-3 : ℚ) ≤ 0 ∧ scale_factor (-3) = 1) :=
  ⟨⟨by norm_num, (c2_scale_factor_spec 5).1 (by norm_num)⟩,
   ⟨by norm_num, (c2_scale_factor_spec (-3)).2.2 (by norm_num)⟩⟩

/-- Claim C1: for every wall_thickness_pixels > 0 and caller-supplied
wall_height, extruding the wall polygons by wall_height * scale_factor in
pixel space and rescaling the final model by 1 / scale_factor yields a
model every component of which spans z from 0 to exactly wall_height
(exact in ℚ, hence within any floating-point tolerance).  Stated on the
un-subtracted model (no door or window openings), which is the model the
rescale is applied to. -/
theorem c1_scale_round_trip (walls : List PolyInput) (wall_height wtp : ℚ)
    (diff : Mesh → Mesh → Except Unit Mesh)
    (hwtp : 0 < wtp) (hsome : ∃ p ∈ walls, accepted p) :
    ∀ c ∈ (build_3d_model walls [] [] wall_height wtp diff).comps,
      c = (0, wall_height) := by
  intro c hc
  have hE := extrudeList_isEmpty_false
    (wall_height * scale_factor wtp) hsome
  rw [build_no_openings walls wall_height wtp diff hE] at hc
  simp only [Mesh.applyScale, concatenate, List.mem_map, List.mem_flatten] at hc
  obtain ⟨a, ⟨l, ⟨m, hm, hml⟩, hal⟩, hac⟩ := hc
  subst hml
  rw [mem_extrudeList hm] at hal
  simp only [extrudePolygon, List.mem_singleton] at hal
  subst hal
  rw [← hac]
  simp only [Prod.mk.injEq]
  constructor
  · ring
  · rw [mul_one_div, mul_div_cancel_right₀ _ (scale_factor_ne_zero wtp)]

/-- Witness for C1: one wall polygon, wall_height 3 m, thickness 5 px. -/
theorem c1_scale_round_trip_witness :
    (0 : ℚ) < 5
    ∧ ∀ c ∈ (build_3d_model [demoGood] [] [] 3 5 errDiff).comps,
        c = ((0 : ℚ), (3 : ℚ)) :=
  ⟨by norm_num,
   c1_scale_round_trip [demoGood] 3 5 errDiff (by norm_num)
    ⟨demoGood, List.mem_singleton_self _, rfl, rfl, rfl⟩⟩

/-- The rescaled concatenation of the wall extrusions is never empty when
some wall polygon was accepted. -/
theorem concat_scale_nonempty {walls : List PolyInput} (hgt s : ℚ)
    (h : ∃ p ∈ walls, accepted p) :
    ((concatenate (extrudeList walls hgt)).applyScale s).isEmptyM = false := by
  obtain ⟨m, hm⟩ := List.exists_mem_of_ne_nil _ (extrudeList_ne_nil hgt h)
  have key : ((0 : ℚ) * s, hgt * s)
      ∈ ((concatenate (extrudeList walls hgt)).applyScale s).comps := by
    simp only [Mesh.applyScale, concatenate, List.mem_map, List.mem_flatten]
    refine ⟨(0, hgt), ⟨(extrudePolygon hgt).comps, ⟨m, hm, ?_⟩, ?_⟩, rfl⟩
    · rw [mem_extrudeList hm]
    · simp [extrudePolygon]
  cases hI : ((concatenate (extrudeList walls hgt)).applyScale s).isEmptyM
  · rfl
  · rw [Mesh.isEmptyM, List.isEmpty_iff] at hI
    rw [hI] at key
    exact absurd key (List.not_mem_nil _)

/-- When some opening mesh exists and the boolean difference raises or
yields an empty mesh, build_3d_model falls back to the rescaled wall
solid. -/
theorem build_subtract_fallback (walls doors windows : List PolyInput)
    (wall_height wtp : ℚ) (diff : Mesh → Mesh → Except Unit Mesh)
    (hE : (extrudeList walls (wall_height * scale_factor wtp)).isEmpty = false)
    (hO : (extrudeList doors (REAL_WORLD_DOOR_HEIGHT_METERS * scale_factor wtp) ++
          (extrudeList windows (REAL_WORLD_WINDOW_HEIGHT_METERS * scale_factor wtp)).map
            (fun m => m.applyTranslationZ
              (REAL_WORLD_WINDOW_SILL_HEIGHT_METERS * scale_factor wtp))).isEmpty
        = false)
    (hdiff : ∀ m₁ m₂ : Mesh, diff m₁ m₂ = Except.error () ∨
      ∃ m, diff m₁ m₂ = Except.ok m ∧ m.isEmptyM = true) :
    build_3d_model walls doors windows wall_height wtp diff
      = (concatenate (extrudeList walls (wall_height * scale_factor wtp))).applyScale
          (1 / scale_factor wtp) := by
  simp only [build_3d_model, hE, Bool.false_eq_true, if_false, hO,
    if_pos (scale_factor_pos wtp)]
  rcases hdiff (concatenate (extrudeList walls (wall_height * scale_factor wtp)))
    (concatenate
      (extrudeList doors (REAL_WORLD_DOOR_HEIGHT_METERS * scale_factor wtp) ++
        (extrudeList windows (REAL_WORLD_WINDOW_HEIGHT_METERS * scale_factor wtp)).map
          (fun m => m.applyTranslationZ
            (REAL_WORLD_WINDOW_SILL_HEIGHT_METERS * scale_factor wtp))))
    with h | ⟨m, h, hme⟩
  · simp [h]
  · simp [h, hme]

/-- Claim C3 (amended): whenever at least one wall mesh was constructed and
an opening mesh exists, if the boolean subtraction raises or yields an
empty result, build_3d_model returns the (rescaled) un-subtracted wall
solid, which is non-empty.  An invalid but non-empty subtraction result is
returned as-is: the source only tests is_empty. -/
theorem c3_subtraction_fallback (walls doors windows : List PolyInput)
    (wall_height wtp : ℚ) (diff : Mesh → Mesh → Except Unit Mesh)
    (hwall : ∃ p ∈ walls, accepted p)
    (hopen : (∃ p ∈ doors, accepted p) ∨ (∃ p ∈ windows, accepted p))
    (hdiff : ∀ m₁ m₂ : Mesh, diff m₁ m₂ = Except.error () ∨
      ∃ m, diff m₁ m₂ = Except.ok m ∧ m.isEmptyM = true) :
    build_3d_model walls doors windows wall_height wtp diff
      = (concatenate (extrudeList walls (wall_height * scale_factor wtp))).applyScale
          (1 / scale_factor wtp)
    ∧ (build_3d_model walls doors windows wall_height wtp diff).isEmptyM = false := by
  have hE := extrudeList_isEmpty_false
    (wall_height * scale_factor wtp) hwall
  have hOne : (extrudeList doors (REAL_WORLD_DOOR_HEIGHT_METERS * scale_factor wtp) ++
      (extrudeList windows (REAL_WORLD_WINDOW_HEIGHT_METERS * scale_factor wtp)).map
        (fun m => m.applyTranslationZ
          (REAL_WORLD_WINDOW_SILL_HEIGHT_METERS * scale_factor wtp))).isEmpty
      = false := by
    rcases hopen with hd | hw
    · have := extrudeList_ne_nil
        (REAL_WORLD_DOOR_HEIGHT_METERS * scale_factor wtp) hd
      cases hI : (extrudeList doors (REAL_WORLD_DOOR_HEIGHT_METERS * scale_factor wtp) ++
          (extrudeList windows (REAL_WORLD_WINDOW_HEIGHT_METERS * scale_factor wtp)).map
            (fun m => m.applyTranslationZ
              (REAL_WORLD_WINDOW_SILL_HEIGHT_METERS * scale_factor wtp))).isEmpty
      · rfl
      · rw [List.isEmpty_iff, List.append_eq_nil] at hI
        exact absurd hI.1 this
    · have := extrudeList_ne_nil
        (REAL_WORLD_WINDOW_HEIGHT_METERS * scale_factor wtp) hw
      cases hI : (extrudeList doors (REAL_WORLD_DOOR_HEIGHT_METERS * scale_factor wtp) ++
          (extrudeList windows (REAL_WORLD_WINDOW_HEIGHT_METERS * scale_factor wtp)).map
            (fun m => m.applyTranslationZ
              (REAL_WORLD_WINDOW_SILL_HEIGHT_METERS * scale_factor wtp))).isEmpty
      · rfl
      · rw [List.isEmpty_iff, List.append_eq_nil] at hI
        exact absurd (List.map_eq_nil_iff.mp hI.2) this
  have heq := build_subtract_fallback walls doors windows wall_height wtp diff hE hOne hdiff
  refine ⟨heq, ?_⟩
  rw [heq]
  exact concat_scale_nonempty _ _ hwall

/-- Witness for C3: one wall and one door polygon, engine always raises. -/
theorem c3_subtraction_fallback_witness :
    build_3d_model [demoGood] [demoGood] [] 3 5 errDiff
      = (concatenate (extrudeList [demoGood] (3 * scale_factor 5))).applyScale
          (1 / scale_factor 5)
    ∧ (build_3d_model [demoGood] [demoGood] [] 3 5 errDiff).isEmptyM = false :=
  c3_subtraction_fallback [demoGood] [demoGood] [] 3 5 errDiff
    ⟨demoGood, List.mem_singleton_self _, rfl, rfl, rfl⟩
    (Or.inl ⟨demoGood, List.mem_singleton_self _, rfl, rfl, rfl⟩)
    (fun _ _ => Or.inl rfl)

/-- Claim C3 counterexample: when the boolean difference returns a
non-empty but invalid mesh, build_3d_model returns that invalid mesh
(rescaled), not the un-subtracted wall solid the claim requires. -/
theorem c3_counterexample :
    build_3d_model [demoGood] [demoGood] [] 3 5 invalidDiff
      = ⟨[(0, 1/25)], false⟩
    ∧ build_3d_model [demoGood] [demoGood] [] 3 5 invalidDiff
      ≠ (concatenate (extrudeList [demoGood] (3 * scale_factor 5))).applyScale
          (1 / scale_factor 5) := by
  have h25 : scale_factor 5 = 25 := by
    norm_num [scale_factor, REAL_WORLD_WALL_THICKNESS_METERS]
  have hbuild : build_3d_model [demoGood] [demoGood] [] 3 5 invalidDiff
      = ⟨[(0, 1/25)], false⟩ := by
    simp only [build_3d_model, h25]
    simp [extrudeList, demoGood, demoPoly, extrudePolygon, concatenate,
      invalidDiff, Mesh.isEmptyM, Mesh.applyScale, Mesh.applyTranslationZ]
  refine ⟨hbuild, ?_⟩
  rw [hbuild, h25]
  simp [extrudeList, demoGood, demoPoly, extrudePolygon, concatenate,
    Mesh.applyScale]

/-- Per-contour soundness: under the Shapely invariants on the zero-buffer
result, every polygon the contour loop emits is valid and non-empty. -/
theorem processContour_sound {min_area : ℚ} {c : ContourInput}
    (hinv : c.buffered.shapelyInv) :
    ∀ p ∈ processContour min_area c, p.valid = true ∧ p.empty = false := by
  intro p hp
  unfold processContour at hp
  split_ifs at hp with h1 h2 h3 h4 h5 h6
  all_goals try exact absurd hp (List.not_mem_nil p)
  · rw [List.mem_singleton] at hp
    subst hp
    rw [Bool.and_eq_true, Bool.not_eq_true'] at h4
    exact h4
  · split at hp
    · rename_i f heq
      split_ifs at hp with hf
      · rw [List.mem_singleton] at hp
        subst hp
        rw [Bool.and_eq_true, Bool.not_eq_true'] at hf
        exact hf
      · exact absurd hp (List.not_mem_nil p)
    · rename_i v e geoms heq
      rw [heq] at hinv
      split_ifs at hp with hv
      · rw [Bool.and_eq_true, Bool.not_eq_true'] at hv
        exact ⟨hinv.1 hv.1 p hp, hinv.2 p hp⟩
      · exact absurd hp (List.not_mem_nil p)

/-- Evaluation of extract_polygons_from_image on a readable image whose
preprocessing does not raise. -/
theorem extract_some_eval (im : ImageInput) (min_area : ℚ)
    (ht : im.threshRaises = false) :
    extract_polygons_from_image (some im) min_area
      = if ((im.contours.map (processContour min_area)).flatten).isEmpty then
          (if (fallbackPoly im.h im.w).valid then
            Except.ok [fallbackPoly im.h im.w]
          else Except.ok [])
        else Except.ok ((im.contours.map (processContour min_area)).flatten) := by
  cases hWE : ((im.contours.map (processContour min_area)).flatten).isEmpty
  · simp [extract_polygons_from_image, extractBody, ht, hWE]
  · cases hFV : (fallbackPoly im.h im.w).valid
    · simp [extract_polygons_from_image, extractBody, ht, hWE, hFV]
    · simp [extract_polygons_from_image, extractBody, ht, hWE, hFV]

/-- Claim C6: every polygon returned by extract_polygons_from_image,
whether accepted directly, produced by the zero-buffer repair (including
each member of a repaired MultiPolygon), or the fallback rectangle, is
valid and non-empty; unrepaired invalid polygons are discarded. -/
theorem c6_polygon_validity (img : Option ImageInput) (min_area : ℚ)
    (out : List SPoly)
    (hinv : ∀ im, img = some im → ∀ c ∈ im.contours, c.buffered.shapelyInv)
    (hout : extract_polygons_from_image img min_area = Except.ok out) :
    ∀ p ∈ out, p.valid = true ∧ p.empty = false := by
  intro p hp
  cases img with
  | none =>
    have h0 : ([] : List SPoly) = out := by
      simpa [extract_polygons_from_image, extractBody] using hout
    rw [← h0] at hp
    exact absurd hp (List.not_mem_nil p)
  | some im =>
    cases ht : im.threshRaises with
    | true =>
      have h0 : extract_polygons_from_image (some im) min_area = Except.ok [] := by
        simp [extract_polygons_from_image, extractBody, ht]
      rw [h0] at hout
      injection hout with h1
      rw [← h1] at hp
      exact absurd hp (List.not_mem_nil p)
    | false =>
      rw [extract_some_eval im min_area ht] at hout
      cases hWE : ((im.contours.map (processContour min_area)).flatten).isEmpty
      · rw [hWE] at hout
        simp only [Bool.false_eq_true, if_false] at hout
        injection hout with h1
        rw [← h1] at hp
        rw [List.mem_flatten] at hp
        obtain ⟨l, hl, hpl⟩ := hp
        rw [List.mem_map] at hl
        obtain ⟨c, hc, rfl⟩ := hl
        exact processContour_sound (hinv im rfl c hc) p hpl
      · rw [hWE] at hout
        simp only [if_true] at hout
        cases hFV : (fallbackPoly im.h im.w).valid
        · rw [hFV] at hout
          simp only [Bool.false_eq_true, if_false] at hout
          injection hout with h1
          rw [← h1] at hp
          exact absurd hp (List.not_mem_nil p)
        · rw [hFV] at hout
          simp only [if_true] at hout
          injection hout with h1
          rw [← h1] at hp
          rw [List.mem_singleton] at hp
          subst hp
          refine ⟨hFV, ?_⟩
          have hpe : (fallbackPoly im.h im.w).empty
              = !(fallbackPoly im.h im.w).valid := rfl
          rw [hpe, hFV]
          rfl

/-- Witness for C6: a readable image with one directly accepted contour. -/
theorem c6_polygon_validity_witness :
    extract_polygons_from_image (some imgDemo) 150 = Except.ok [demoPoly]
    ∧ ∀ p ∈ [demoPoly], p.valid = true ∧ p.empty = false :=
  ⟨rfl,
   c6_polygon_validity (some imgDemo) 150 [demoPoly]
    (by
      intro im him c hc
      injection him with him2
      subst him2
      simp only [imgDemo, List.mem_singleton] at hc
      subst hc
      exact trivial)
    (by rfl)⟩

/-- Claim C5 (amended): for a readable image whose preprocessing does not
raise and in which no contour yields an accepted polygon, the extractor
returns exactly one fallback rectangle inset safe_inset pixels from the
border, where safe_inset = min(10, h/2 - 1, w/2 - 1); the rectangle's
width and height are always at least 2 (never non-positive), and for
images with both dimensions at least 2 the rectangle stays within the
image bounds.  For 1-pixel-thin images the inset is -1 and the rectangle
extends outside the border (see the counterexample). -/
theorem c5_fallback_rectangle (im : ImageInput) (min_area : ℚ)
    (hh : 1 ≤ im.h) (hw : 1 ≤ im.w) (ht : im.threshRaises = false)
    (hnone : (im.contours.map (processContour min_area)).flatten = []) :
    extract_polygons_from_image (some im) min_area
      = Except.ok [fallbackPoly im.h im.w]
    ∧ 2 ≤ (im.w : ℤ) - 2 * safe_inset im.h im.w
    ∧ 2 ≤ (im.h : ℤ) - 2 * safe_inset im.h im.w
    ∧ (2 ≤ im.h → 2 ≤ im.w →
        ∀ q ∈ (fallbackPoly im.h im.w).pts,
          0 ≤ q.1 ∧ q.1 ≤ (im.w : ℤ) ∧ 0 ≤ q.2 ∧ q.2 ≤ (im.h : ℤ)) := by
  have hwb : 2 ≤ (im.w : ℤ) - 2 * safe_inset im.h im.w := by
    unfold safe_inset
    omega
  have hhb : 2 ≤ (im.h : ℤ) - 2 * safe_inset im.h im.w := by
    unfold safe_inset
    omega
  have hFV : (fallbackPoly im.h im.w).valid = true := by
    have : (fallbackPoly im.h im.w).valid
        = decide (0 < (im.w : ℤ) - 2 * safe_inset im.h im.w
            ∧ 0 < (im.h : ℤ) - 2 * safe_inset im.h im.w) := rfl
    rw [this, decide_eq_true_eq]
    omega
  refine ⟨?_, hwb, hhb, ?_⟩
  · rw [extract_some_eval im min_area ht, hnone]
    simp [hFV]
  · intro h2 w2 q hq
    have hsi : 0 ≤ safe_inset im.h im.w := by
      unfold safe_inset
      omega
    have hpts : (fallbackPoly im.h im.w).pts
        = [(safe_inset im.h im.w, safe_inset im.h im.w),
           ((im.w : ℤ) - safe_inset im.h im.w, safe_inset im.h im.w),
           ((im.w : ℤ) - safe_inset im.h im.w, (im.h : ℤ) - safe_inset im.h im.w),
           (safe_inset im.h im.w, (im.h : ℤ) - safe_inset im.h im.w)] := rfl
    rw [hpts] at hq
    simp only [List.mem_cons, List.not_mem_nil, or_false] at hq
    rcases hq with rfl | rfl | rfl | rfl
    all_goals refine ⟨?_, ?_, ?_, ?_⟩
    all_goals simp only []
    all_goals omega

/-- Witness for C5: a readable 30 × 40 image with no usable contours. -/
theorem c5_fallback_rectangle_witness :
    extract_polygons_from_image (some img3040) 150
      = Except.ok [fallbackPoly img3040.h img3040.w]
    ∧ 2 ≤ (img3040.w : ℤ) - 2 * safe_inset img3040.h img3040.w
    ∧ 2 ≤ (img3040.h : ℤ) - 2 * safe_inset img3040.h img3040.w
    ∧ (2 ≤ img3040.h → 2 ≤ img3040.w →
        ∀ q ∈ (fallbackPoly img3040.h img3040.w).pts,
          0 ≤ q.1 ∧ q.1 ≤ (img3040.w : ℤ) ∧ 0 ≤ q.2 ∧ q.2 ≤ (img3040.h : ℤ)) :=
  c5_fallback_rectangle img3040 150 (by decide) (by decide) rfl rfl

/-- Claim C5 counterexample: on a readable 1 × 1 image with no accepted
contours the fallback inset evaluates to -1, so the single returned
rectangle has the corner (-1, -1), which lies outside the image bounds. -/
theorem c5_counterexample :
    extract_polygons_from_image (some img11) 150
      = Except.ok [fallbackPoly 1 1]
    ∧ ((-1 : ℤ), (-1 : ℤ)) ∈ (fallbackPoly 1 1).pts
    ∧ ¬(0 ≤ (-1 : ℤ)) := by
  refine ⟨rfl, by decide, by decide⟩

/-- Claim C7 counterexample: on an unreadable (null) image the extractor
performs an ordinary return of the empty list; it does not fail with the
spec's ImageLoadError (no such exception exists in the code). -/
theorem c7_counterexample :
    extract_polygons_from_image none 150 = Except.ok []
    ∧ (Except.ok ([] : List SPoly) : Except PyExn (List SPoly))
        ≠ Except.error PyExn.imageLoadError :=
  ⟨rfl, by simp⟩

/-- Claim C7 (amended): for an unreadable (null) input image the
extraction stage does not proceed: it returns an empty polygon list (a
normal return, there is no ImageLoadError in the code), and the /convert
caller maps the empty wall list to its bad-request failure rather than
continuing the pipeline. -/
theorem c7_unreadable_image (min_area : ℚ) (doors windows : List PolyInput)
    (wall_height wtp : ℚ) (diff : Mesh → Mesh → Except Unit Mesh) :
    extract_polygons_from_image none min_area = Except.ok []
    ∧ convert_blueprint_to_3d [] doors windows wall_height wtp diff
        = (ConvertResponse.badRequestNoWalls, emptyTrimesh) :=
  ⟨rfl, rfl⟩

/-- Claim C10: extract_polygons_from_image never propagates an exception:
for every input (including ones where OpenCV or Shapely calls raise) it
returns an ordinary list, because the top-level try/except returns [] on
any escaping exception. -/
theorem c10_extraction_total (img : Option ImageInput) (min_area : ℚ) :
    ∃ l, extract_polygons_from_image img min_area = Except.ok l := by
  unfold extract_polygons_from_image
  cases h : extractBody img min_area with
  | ok l => exact ⟨l, rfl⟩
  | error e => exact ⟨[], rfl⟩

/-- Claim C8 counterexample: on an unreadable (null) main image
find_features performs an ordinary return of the empty list; it does not
fail with the spec's TemplateLoadError (no such exception exists in the
code), so a decode failure is indistinguishable from zero matches. -/
theorem c8_counterexample :
    find_features none (some tmpl23) (8/10) = Except.ok []
    ∧ (Except.ok ([] : List SPoly) : Except PyExn (List SPoly))
        ≠ Except.error PyExn.templateLoadError :=
  ⟨rfl, by simp⟩

/-- Claim C8 (amended): when either the source image or the template fails
to decode, find_features returns an empty list with an error log (there is
no TemplateLoadError exception in the code), which is the same value as
the zero-matches outcome; and find_features never raises: it always
returns an ordinary list. -/
theorem c8_decode_failure_contract (img : Option Unit) (tmpl : Option MatchInput)
    (threshold : ℚ) :
    ((img = none ∨ tmpl = none) → find_features img tmpl threshold = Except.ok [])
    ∧ ∃ l, find_features img tmpl threshold = Except.ok l := by
  constructor
  · rintro (rfl | rfl)
    · rfl
    · cases img with
      | none => rfl
      | some u => rfl
  · unfold find_features
    cases h : findFeaturesBody img tmpl threshold with
    | ok l => exact ⟨l, rfl⟩
    | error e => exact ⟨[], rfl⟩

/-- Witness for C8 at a null main image and a concrete template. -/
theorem c8_decode_failure_contract_witness :
    find_features none (some tmpl23) (7/10) = Except.ok []
    ∧ ∃ l, find_features none (some tmpl23) (7/10) = Except.ok l :=
  ⟨(c8_decode_failure_contract none (some tmpl23) (7/10)).1 (Or.inl rfl),
   (c8_decode_failure_contract none (some tmpl23) (7/10)).2⟩

/-- Claim C9: when both images decode and matchTemplate succeeds, every
location whose score meets or exceeds the threshold contributes the
template-sized axis-aligned rectangle anchored at that location to the
output, and the output keeps one rectangle per threshold-passing location
(no de-duplication): its length equals the number of threshold-passing
score entries. -/
theorem c9_template_match_output (t : MatchInput) (threshold : ℚ)
    (out : List SPoly)
    (hw : 0 < t.w) (hh : 0 < t.h) (hr : t.matchRaises = false)
    (hout : find_features (some ()) (some t) threshold = Except.ok out) :
    (∀ pt s, (pt, s) ∈ t.scores → threshold ≤ s →
      rectPoly pt t.w t.h ∈ out)
    ∧ out.length
        = (t.scores.filter (fun e => decide (threshold ≤ e.2))).length := by
  have hvalid : ∀ e ∈ (t.scores.filter (fun e => decide (threshold ≤ e.2))).map
      (fun e => rectPoly e.1 t.w t.h),
      (e.valid && !e.empty) = true := by
    intro e he
    rw [List.mem_map] at he
    obtain ⟨x, -, rfl⟩ := he
    simp [rectPoly, hw, hh]
  have hbody : out = (t.scores.filter (fun e => decide (threshold ≤ e.2))).map
      (fun e => rectPoly e.1 t.w t.h) := by
    have h0 : find_features (some ()) (some t) threshold
        = Except.ok ((t.scores.filter (fun e => decide (threshold ≤ e.2))).map
            (fun e => rectPoly e.1 t.w t.h)) := by
      simp only [find_features, findFeaturesBody, hr, Bool.false_eq_true, if_false]
      rw [List.filter_eq_self.mpr hvalid]
    rw [h0] at hout
    injection hout with h1
    exact h1.symm
  subst hbody
  constructor
  · intro pt s hmem hts
    rw [List.mem_map]
    refine ⟨(pt, s), ?_, rfl⟩
    rw [List.mem_filter]
    exact ⟨hmem, by simpa using hts⟩
  · rw [List.length_map]

/-- Witness for C9: a 2 × 3 template with one location scoring 0.9 against
threshold 0.8. -/
theorem c9_template_match_output_witness :
    (∀ pt s, (pt, s) ∈ tmpl23.scores → (8/10 : ℚ) ≤ s →
      rectPoly pt tmpl23.w tmpl23.h ∈ [rectPoly (1, 1) 2 3])
    ∧ ([rectPoly (1, 1) 2 3] : List SPoly).length
        = (tmpl23.scores.filter (fun e => decide ((8/10 : ℚ) ≤ e.2))).length :=
  c9_template_match_output tmpl23 (8/10) [rectPoly (1, 1) 2 3]
    (by decide) (by decide) rfl
    (by
      have h1 : ((8 : ℚ)/10) ≤ 9/10 := by norm_num
      simp [find_features, findFeaturesBody, tmpl23, rectPoly, List.filter, h1])

/-- Claim C4 (code-bug evaluation): with a non-empty wall polygon list on
which every extrusion fails, build_3d_model returns the empty mesh instead
of raising, and the /convert route answers success with that empty model;
the structured badRequestNoMeshes failure is never produced. -/
theorem c4_zero_wall_mesh_silent_success :
    convert_blueprint_to_3d [demoRaise] [] [] 3 5 errDiff
      = (ConvertResponse.success, emptyTrimesh)
    ∧ emptyTrimesh.isEmptyM = true
    ∧ convert_blueprint_to_3d [demoRaise] [] [] 3 5 errDiff
      ≠ (ConvertResponse.badRequestNoMeshes, emptyTrimesh) := by
  refine ⟨by decide, rfl, by decide⟩

end Bluevision
